import Mathlib

/-!
# Verification of the dride image-flasher flash-session orchestrator

Shallow embedding of two source files:

* `flash controller` (`src/unnamed/part_000`): `flashImageToDrive`,
  `getProgressButtonLabel`, `downloadImageIfNeeded`.
* `image-selector` (`src/lib/gui/modules/image-selector.js`): `selectImage`,
  `reselectImage`, `selectCustomImage`.

External collaborators (drive scanner, writer service, notification sink,
modal services, analytics, selection state, flash state) are modelled by the
observable events the controller emits to them, collected in an event trace.
Promise chains are modelled by the deterministic trace each combination of
collaborator outcomes produces; a promise that never settles is modelled
explicitly (an outcome constructor, or the absence of further events).
-/

namespace Dride

/-- User-facing error-modal messages shown by `FlashErrorModalService.show`
(the `messages.error.*` constructors used in the catch branch). -/
inductive ErrMsg
  | validation
  | driveUnplugged
  | inputOutput
  | notEnoughSpace
  | generic
deriving DecidableEq, Repr

/-- Observable side effects of a flash session, in the order the controller
performs them. -/
inductive Event
  | scannerStop
  | scannerStart
  | setFlashingFlag
  | unsetFlashingFlag
  /-- `ImageWriterService.setProgressState` with `type = 'download'`
  carrying the tick's percentage. -/
  | progressDownload (percentage : Nat)
  /-- the download stream is piped into the staging file `os.zip`. -/
  | pipeToStaging
  | notifySuccess
  | notifyFailure
  | showErrorModal (m : ErrMsg)
  /-- `exceptionReporter.report error`. -/
  | reportException
  /-- `state.go success`. -/
  | stateGoSuccess
deriving DecidableEq, Repr

/-- The image argument of `flashImageToDrive` / `downloadImageIfNeeded`:
either it carries a local `path` (a local image) or it is a remote source. -/
structure ImageRef where
  path : Option String
deriving DecidableEq, Repr

/-- Outcome of the external writer call `ImageWriterService.flash`:
its promise resolves, rejects with an error whose `code` field is modelled as
`Option String` (`none` = no code), or the call throws synchronously. -/
inductive WriterOutcome
  | resolves
  | rejects (code : Option String)
  | throwsSync
deriving DecidableEq, Repr

/-- One flash session: the collaborator outcomes that determine the
controller's execution path. -/
structure FlashSession where
  /-- `flashState.isFlashing()` at entry (the re-entry guard). -/
  alreadyFlashing : Bool
  image : ImageRef
  /-- percentages reported by the transfer's progress events, in order. -/
  downloadTicks : List Nat
  /-- whether `ImageSelectorService.selectImageByPath` settles successfully. -/
  selectSucceeds : Bool
  writer : WriterOutcome
  /-- `flashState.wasLastFlashCancelled()` when the writer resolves. -/
  wasCancelled : Bool
deriving DecidableEq, Repr

/-- The error-code classification in the catch branch of `flashImageToDrive`
(lines 103–114): one modal per rejection, and `exceptionReporter.report` only
in the fall-through branch. -/
def classifyFlashError (code : Option String) : List Event :=
  if code = some "EVALIDATION" then [.showErrorModal .validation]
  else if code = some "EUNPLUGGED" then [.showErrorModal .driveUnplugged]
  else if code = some "EIO" then [.showErrorModal .inputOutput]
  else if code = some "ENOSPC" then [.showErrorModal .notEnoughSpace]
  else [.showErrorModal .generic, .reportException]

/-- `downloadImageIfNeeded`: a local image resolves immediately with its own
path and produces no events; a remote source sets the flashing flag, pipes the
stream into the staging file, publishes a download progress record per tick,
unsets the flashing flag on `end` and resolves with `./os.zip`. -/
def downloadImageIfNeeded (image : ImageRef) (ticks : List Nat) :
    List Event × String :=
  match image.path with
  | some p => ([], p)
  | none =>
      (Event.setFlashingFlag :: Event.pipeToStaging ::
        ticks.map Event.progressDownload ++ [Event.unsetFlashingFlag],
       "./os.zip")

/-- `flashImageToDrive`: the full session trace. The `.finally` that restarts
the drive scanner is attached to the writer promise chain
(`flash(...).then(...).catch(...).finally(...)`), so it runs exactly when the
writer call returns a promise that settles; a synchronously-throwing writer
escapes the chain before `.finally` is attached, and a rejection of
`selectImageByPath` has no handler at all. -/
def flashImageToDrive (s : FlashSession) : List Event :=
  if s.alreadyFlashing then []
  else
    let dl := downloadImageIfNeeded s.image s.downloadTicks
    Event.scannerStop :: dl.1 ++
      (if s.selectSucceeds then
        match s.writer with
        | .throwsSync => []
        | .resolves =>
            (if s.wasCancelled then []
             else [Event.notifySuccess, Event.stateGoSuccess]) ++
            [Event.scannerStart]
        | .rejects code =>
            Event.notifyFailure :: classifyFlashError code ++
              [Event.scannerStart]
      else [])

/-- The value of the process-wide `isFlashing` flag after a trace, starting
from `init`: `setFlashingFlag` sets it, `unsetFlashingFlag` clears it. -/
def flashingAfter (init : Bool) (tr : List Event) : Bool :=
  tr.foldl
    (fun b e =>
      match e with
      | .setFlashingFlag => true
      | .unsetFlashingFlag => false
      | _ => b)
    init

/-- Is the event a `FlashErrorModalService.show` call? -/
def isErrorModal : Event → Bool
  | .showErrorModal _ => true
  | _ => false

/-! ## Image selector (`src/lib/gui/modules/image-selector.js`) -/

/-- The two risk-warning messages of `messages.warning`. -/
inductive WarnMsg
  | looksLikeWindowsImage
  | missingPartitionTable
deriving DecidableEq, Repr

/-- Observable side effects of `selectImage` and the helpers it calls. -/
inductive SelEvent
  /-- `osDialog.showError invalidImageError`. -/
  | showError
  /-- `analytics.logEvent` with the given event name. -/
  | logInvalidImage
  | logPossiblyWindows
  | logMissingPartitionTable
  /-- `WarningModalService.display` with the given risk message. -/
  | displayWarningModal (m : WarnMsg)
  /-- `analytics.logEvent Reselect-image` (inside `reselectImage`). -/
  | logReselect
  /-- `selectionState.removeImage()` (inside `removeImageSelection`). -/
  | removeImage
  /-- `selectionState.setImage image`. -/
  | setImage
  | logSelectImage
deriving DecidableEq, Repr

/-- How the promise returned by `selectImage` settles: resolves with the
committed image, rejects (with the candidate image object), or never
settles. -/
inductive SelOutcome
  | resolved
  | rejectedWithImage
  | pending
deriving DecidableEq, Repr

/-- One `selectImage` call: the results of the external predicates
`supportedFormats.isSupportedImage image.path` and
`supportedFormats.looksLikeWindowsImage image.path`, the candidate's
`hasMBR` flag, and the user's answer to the warning modal
(`true` = the `Change` / go-back choice). -/
structure SelInput where
  supported : Bool
  looksWindows : Bool
  hasMBR : Bool
  userGoBack : Bool
deriving DecidableEq, Repr

/-- The risk-message computation of `selectImage` (lines 93–101): the
Windows-image heuristic is tested first; otherwise a missing MBR fires the
partition-table warning; otherwise no message. -/
def riskMessage (looksWindows hasMBR : Bool) : Option WarnMsg :=
  if looksWindows then some .looksLikeWindowsImage
  else if !hasMBR then some .missingPartitionTable
  else none

/-- `reselectImage`: logs the reselect event and clears the selection via
`removeImageSelection`; returns nothing. -/
def reselectImage : List SelEvent :=
  [.logReselect, .removeImage]

/-- `selectImage`: trace and settlement of the returned promise. An
unsupported image shows the invalid-image error, logs it, and rejects with
the image. Otherwise at most one risk message is computed (logging its
analytics event) and, when present, shown in the warning modal; if the user
chooses to go back, `reselectImage` runs and the outer promise is never
settled (nothing calls `resolve`/`reject` on that path); else the image is
committed with `setImage` and the promise resolves. -/
def selectImage (i : SelInput) : List SelEvent × SelOutcome :=
  if !i.supported then
    ([.showError, .logInvalidImage], .rejectedWithImage)
  else
    let logEvts : List SelEvent :=
      if i.looksWindows then [.logPossiblyWindows]
      else if !i.hasMBR then [.logMissingPartitionTable]
      else []
    let message := riskMessage i.looksWindows i.hasMBR
    let modalEvts : List SelEvent :=
      match message with
      | some m => [.displayWarningModal m]
      | none => []
    let shouldChange :=
      match message with
      | some _ => i.userGoBack
      | none => false
    if shouldChange then
      (logEvts ++ modalEvts ++ reselectImage, .pending)
    else
      (logEvts ++ modalEvts ++ [.setImage, .logSelectImage], .resolved)

/-- Is the event a `WarningModalService.display` call? -/
def isWarningModal : SelEvent → Bool
  | .displayWarningModal _ => true
  | _ => false

/-- The fixed custom-image URL used by `selectCustomImage`. -/
def drideLatestUrl : String := "https://s3.amazonaws.com/dride/latest.zip"

/-- Observable side effect of `selectCustomImage`. -/
inductive CustomSelEvent
  | setCustomImage (url name : String)
deriving DecidableEq, Repr

/-- `selectCustomImage` (lines 249–257): two independent `if`s, each calling
`selectionState.setCustomImage` with the same fixed URL; no other effect and
no return value. -/
def selectCustomImage (imgName : String) : List CustomSelEvent :=
  (if imgName = "drideOSZ" then [.setCustomImage drideLatestUrl imgName]
   else []) ++
  (if imgName = "drideOS" then [.setCustomImage drideLatestUrl imgName]
   else [])

/-! ## Progress button label (`src/unnamed/part_000`, lines 132–156) -/

/-- The snapshot of flash state read by `getProgressButtonLabel`:
`flashState.isDownloading()`, `flashState.isFlashing()`, and the
`type`/`percentage`/`speed` fields of `flashState.getFlashState()` (the
latter two modelled with `Option`/`Nat`; a missing or zero speed is falsy in
the source). -/
structure FlashStateView where
  isDownloading : Bool
  isFlashing : Bool
  type : Option String
  percentage : Nat
  speed : Option Nat
deriving DecidableEq, Repr

/-- Modelled from the spec: `utils.PERCENTAGE_MINIMUM` lives in the shared
utils module, which is not under `src/`; the spec's label rules compare the
percentage with 0. -/
def PERCENTAGE_MINIMUM : Nat := 0

/-- Modelled from the spec: `utils.PERCENTAGE_MAXIMUM` lives in the shared
utils module, which is not under `src/`; the spec's label rules compare the
percentage with 100. -/
def PERCENTAGE_MAXIMUM : Nat := 100

/-- Truthiness of the `speed` field (`!currentFlashState.speed`): absent or
zero speed is falsy. -/
def speedFalsy : Option Nat → Bool
  | none => true
  | some 0 => true
  | some (_ + 1) => false

/-- `getProgressButtonLabel`, with the `unmountOnSuccess` setting passed in.
Note the first two guards: the label is `Flash!` whenever
`!flashState.isDownloading()`, and also when downloading but
`!flashState.isFlashing()`. -/
def getProgressButtonLabel (s : FlashStateView) (unmountOnSuccess : Bool) :
    String :=
  let isChecking := s.type = some "check"
  let isDownloadingType := s.type = some "download"
  if !s.isDownloading then "Flash!"
  else if !s.isFlashing then "Flash!"
  else if s.percentage = PERCENTAGE_MINIMUM && speedFalsy s.speed then
    "Starting..."
  else if s.percentage = PERCENTAGE_MAXIMUM then
    if isChecking && unmountOnSuccess then "Unmounting..." else "Finishing..."
  else if isChecking then toString s.percentage ++ "% Validating..."
  else if isDownloadingType then toString s.percentage ++ "% Downloading..."
  else toString s.percentage ++ "%"

/-- The label function as claim C8 words it (its branch guards verbatim):
`Flash!` requires *both* not downloading and not flashing; `Starting...`
requires flashing with percentage 0 and no speed; then the 100% /
validate / download / default branches. Written from the claim, to be
compared with `getProgressButtonLabel`. -/
def claimedProgressLabel (s : FlashStateView) (unmountOnSuccess : Bool) :
    String :=
  if !s.isDownloading && !s.isFlashing then "Flash!"
  else if s.isFlashing && (s.percentage = 0 && speedFalsy s.speed) then
    "Starting..."
  else if s.percentage = 100 then
    if s.type = some "check" && unmountOnSuccess then "Unmounting..."
    else "Finishing..."
  else if s.type = some "check" then
    toString s.percentage ++ "% Validating..."
  else if s.type = some "download" then
    toString s.percentage ++ "% Downloading..."
  else toString s.percentage ++ "%"

/-- The label function as the amended claim words it: identical to the claim
except the first branch, which reads `Flash!` unless both downloading and
flashing are true (all later branches therefore run only when downloading
and flashing). Written from the amended claim, to be compared with
`getProgressButtonLabel`. -/
def amendedProgressLabel (s : FlashStateView) (unmountOnSuccess : Bool) :
    String :=
  if !(s.isDownloading && s.isFlashing) then "Flash!"
  else if s.percentage = 0 && speedFalsy s.speed then "Starting..."
  else if s.percentage = 100 then
    if s.type = some "check" && unmountOnSuccess then "Unmounting..."
    else "Finishing..."
  else if s.type = some "check" then
    toString s.percentage ++ "% Validating..."
  else if s.type = some "download" then
    toString s.percentage ++ "% Downloading..."
  else toString s.percentage ++ "%"

/-! ## Helper lemmas -/

/-- Download progress ticks contribute nothing to the count of any other
event. -/
theorem count_map_progressTicks (ts : List Nat) (e : Event)
    (h : ∀ n, e ≠ Event.progressDownload n) :
    (ts.map Event.progressDownload).count e = 0 := by
  rw [List.count_eq_zero]
  simp only [List.mem_map]
  rintro ⟨n, -, hn⟩
  exact h n hn.symm

/-- An event that is not a progress tick is not in the tick part of the
trace. -/
theorem not_mem_map_progressTicks (ts : List Nat) (e : Event)
    (h : ∀ n, e ≠ Event.progressDownload n) :
    e ∉ ts.map Event.progressDownload := by
  simp only [List.mem_map]
  rintro ⟨n, -, hn⟩
  exact h n hn.symm

/-- The flashing flag is unchanged across download progress ticks. -/
theorem flashingAfter_map_progressTicks (b : Bool) (ts : List Nat) :
    flashingAfter b (ts.map Event.progressDownload) = b := by
  induction ts with
  | nil => rfl
  | cons t ts ih => simpa [flashingAfter] using ih

/-- `flashingAfter` decomposes over list append. -/
theorem flashingAfter_append (b : Bool) (xs ys : List Event) :
    flashingAfter b (xs ++ ys) = flashingAfter (flashingAfter b xs) ys := by
  simp [flashingAfter, List.foldl_append]

/-- Download progress ticks contain no diagnostic reports. -/
theorem count_reportException_progressTicks (ts : List Nat) :
    (ts.map Event.progressDownload).count Event.reportException = 0 :=
  count_map_progressTicks ts _ (by intro n hn; cases hn)

/-- One step of `flashingAfter`. -/
theorem flashingAfter_cons (b : Bool) (e : Event) (tr : List Event) :
    flashingAfter b (e :: tr) =
      flashingAfter
        (match e with
          | .setFlashingFlag => true
          | .unsetFlashingFlag => false
          | _ => b)
        tr := rfl

/-- `flashingAfter` on the empty trace. -/
theorem flashingAfter_nil (b : Bool) : flashingAfter b [] = b := rfl

/-- Download progress ticks are not error modals. -/
theorem filter_isErrorModal_progressTicks (ts : List Nat) :
    (ts.map Event.progressDownload).filter isErrorModal = [] := by
  induction ts with
  | nil => rfl
  | cons t ts ih => simp [isErrorModal, ih]

/-! ## Claim C1 -/

/-- C1, as stated, is false: a synchronously-throwing writer is a terminal
outcome after which the scanner has been stopped once but never restarted.
Concrete session: local image `rpi.img`, selection succeeds, the writer
throws synchronously. -/
theorem C1_counterexample_sync_throw_unbalanced :
    (flashImageToDrive
        ⟨false, ⟨some "rpi.img"⟩, [], true, .throwsSync, false⟩).count
        Event.scannerStart ≠
      (flashImageToDrive
        ⟨false, ⟨some "rpi.img"⟩, [], true, .throwsSync, false⟩).count
        Event.scannerStop := by
  decide

/-- C1 (amended): every session that passes the re-entry guard stops the
scanner exactly once, and the scanner is restarted exactly once when the
writer call returns a promise that settles (resolves or rejects, cancelled
or not); but when the writer throws synchronously, or when selection fails,
the scanner is never restarted — the `finally` is attached only to the
writer promise chain, not to the whole session. -/
theorem C1_scanner_stop_start_balance (s : FlashSession)
    (h : s.alreadyFlashing = false) :
    (flashImageToDrive s).count Event.scannerStop = 1 ∧
    (s.selectSucceeds = true → s.writer ≠ WriterOutcome.throwsSync →
      (flashImageToDrive s).count Event.scannerStart = 1) ∧
    (s.writer = WriterOutcome.throwsSync →
      (flashImageToDrive s).count Event.scannerStart = 0) ∧
    (s.selectSucceeds = false →
      (flashImageToDrive s).count Event.scannerStart = 0) := by
  obtain ⟨af, ⟨p⟩, ticks, sel, w, c⟩ := s
  subst h
  have hstop : ∀ n, Event.scannerStop ≠ Event.progressDownload n := by
    intro n hn; cases hn
  have hstart : ∀ n, Event.scannerStart ≠ Event.progressDownload n := by
    intro n hn; cases hn
  cases p <;> cases sel <;> cases c <;>
    rcases w with _ | code | _ <;>
      simp_all [flashImageToDrive, downloadImageIfNeeded, classifyFlashError,
        List.count_cons, List.count_append,
        count_map_progressTicks _ _ hstop,
        count_map_progressTicks _ _ hstart] <;>
      split_ifs <;> simp_all [List.count_cons]

/-- Witness for C1 (amended): a concrete session whose writer promise
rejects — the scanner is stopped once and restarted once. -/
theorem C1_scanner_stop_start_balance_witness :
    (flashImageToDrive
        ⟨false, ⟨some "rpi.img"⟩, [], true, .rejects (some "EIO"),
          false⟩).count Event.scannerStop = 1 ∧
    (flashImageToDrive
        ⟨false, ⟨some "rpi.img"⟩, [], true, .rejects (some "EIO"),
          false⟩).count Event.scannerStart = 1 := by
  refine ⟨(C1_scanner_stop_start_balance _ rfl).1, ?_⟩
  exact (C1_scanner_stop_start_balance
    ⟨false, ⟨some "rpi.img"⟩, [], true, .rejects (some "EIO"), false⟩
    rfl).2.1 rfl (by decide)

/-! ## Claim C2 -/

/-- C2, as stated, is false: in a session over a local image that runs from
entry to a successful terminal transition, `setFlashingFlag` is never
called, so `isFlashing` is false throughout the session — in particular
right after entry (after the first event) — not true for the whole
duration. -/
theorem C2_counterexample_local_session_never_flashing :
    flashImageToDrive
        ⟨false, ⟨some "rpi.img"⟩, [], true, .resolves, false⟩ ≠ [] ∧
    Event.setFlashingFlag ∉
      flashImageToDrive
        ⟨false, ⟨some "rpi.img"⟩, [], true, .resolves, false⟩ ∧
    flashingAfter false
        ((flashImageToDrive
          ⟨false, ⟨some "rpi.img"⟩, [], true, .resolves, false⟩).take 1) =
      false := by
  decide

/-- C2 (amended): the orchestrator toggles `isFlashing` only around the
download phase — `setFlashingFlag` appears in a session's trace iff the
image is remote (no local path) — and no terminal outcome leaves the flag
stuck true: starting from false, the flag is false again after the full
session trace. During selection and the writer call (and for local images,
during the whole session) `isFlashing` is false. -/
theorem C2_flashing_flag_only_during_download (s : FlashSession)
    (h : s.alreadyFlashing = false) :
    flashingAfter false (flashImageToDrive s) = false ∧
    (Event.setFlashingFlag ∈ flashImageToDrive s ↔ s.image.path = none) := by
  obtain ⟨af, ⟨p⟩, ticks, sel, w, c⟩ := s
  subst h
  have htick : ∀ n, Event.setFlashingFlag ≠ Event.progressDownload n := by
    intro n hn; cases hn
  constructor
  · cases p <;> cases sel <;> cases c <;> rcases w with _ | code | _ <;>
      simp only [flashImageToDrive, downloadImageIfNeeded, classifyFlashError,
        Bool.false_eq_true, if_false, if_true, List.cons_append,
        List.nil_append, List.append_assoc, flashingAfter_cons,
        flashingAfter_append, flashingAfter_map_progressTicks,
        flashingAfter_nil] <;>
      split_ifs <;>
      simp [flashingAfter_cons, flashingAfter_nil, flashingAfter_append]
  · cases p <;> cases sel <;> cases c <;> rcases w with _ | code | _ <;>
      simp_all [flashImageToDrive, downloadImageIfNeeded, classifyFlashError,
        not_mem_map_progressTicks _ _ htick] <;>
      split_ifs <;> simp_all

/-- Witness for C2 (amended): a concrete remote-image session — the flag is
set during download (the image has no local path) and is false again after
the session. -/
theorem C2_flashing_flag_only_during_download_witness :
    flashingAfter false
        (flashImageToDrive
          ⟨false, ⟨none⟩, [10, 45], true, .resolves, false⟩) = false ∧
    (Event.setFlashingFlag ∈
        flashImageToDrive ⟨false, ⟨none⟩, [10, 45], true, .resolves, false⟩ ↔
      (⟨none⟩ : ImageRef).path = none) :=
  C2_flashing_flag_only_during_download
    ⟨false, ⟨none⟩, [10, 45], true, .resolves, false⟩ rfl

/-! ## Claim C3 -/

/-- C3, as stated, is false: the cancellation flag is consulted only in the
success branch; a session cancelled by the user whose writer then rejects
still sends the failure notification. Concrete session: cancelled, writer
rejects with code `EIO`. -/
theorem C3_counterexample_cancelled_rejection_notifies :
    (⟨false, ⟨some "rpi.img"⟩, [], true, .rejects (some "EIO"), true⟩ :
        FlashSession).wasCancelled = true ∧
    Event.notifyFailure ∈
      flashImageToDrive
        ⟨false, ⟨some "rpi.img"⟩, [], true, .rejects (some "EIO"), true⟩ := by
  decide

/-- C3 (amended): in a cancelled session, only the success notification is
suppressed. If the writer resolves, no success and no failure notification
is sent and the scanner is restarted; if the writer rejects, the failure
notification is still sent (the catch branch does not consult the
cancellation flag), while the scanner is restarted and no success
notification is sent. -/
theorem C3_cancelled_session_notifications (s : FlashSession)
    (h : s.alreadyFlashing = false) (hsel : s.selectSucceeds = true)
    (hc : s.wasCancelled = true) :
    (s.writer = WriterOutcome.resolves →
      Event.notifySuccess ∉ flashImageToDrive s ∧
      Event.notifyFailure ∉ flashImageToDrive s ∧
      Event.scannerStart ∈ flashImageToDrive s) ∧
    (∀ code, s.writer = WriterOutcome.rejects code →
      Event.notifyFailure ∈ flashImageToDrive s ∧
      Event.notifySuccess ∉ flashImageToDrive s ∧
      Event.scannerStart ∈ flashImageToDrive s) := by
  obtain ⟨af, ⟨p⟩, ticks, sel, w, c⟩ := s
  subst h; subst hsel; subst hc
  have hsucc : ∀ n, Event.notifySuccess ≠ Event.progressDownload n := by
    intro n hn; cases hn
  have hfail : ∀ n, Event.notifyFailure ≠ Event.progressDownload n := by
    intro n hn; cases hn
  cases p <;> rcases w with _ | code | _ <;>
    simp_all [flashImageToDrive, downloadImageIfNeeded, classifyFlashError,
      not_mem_map_progressTicks _ _ hsucc,
      not_mem_map_progressTicks _ _ hfail] <;>
    split_ifs <;> simp_all

/-- Witness for C3 (amended): a concrete cancelled session whose writer
resolves — no success notification, and the scanner is restarted. -/
theorem C3_cancelled_session_notifications_witness :
    Event.notifySuccess ∉
      flashImageToDrive
        ⟨false, ⟨some "rpi.img"⟩, [], true, .resolves, true⟩ ∧
    Event.scannerStart ∈
      flashImageToDrive
        ⟨false, ⟨some "rpi.img"⟩, [], true, .resolves, true⟩ := by
  have h := (C3_cancelled_session_notifications
    ⟨false, ⟨some "rpi.img"⟩, [], true, .resolves, true⟩ rfl rfl rfl).1 rfl
  exact ⟨h.1, h.2.2⟩

/-! ## Claim C4 -/

/-- C4 (confirmed): every writer rejection shows exactly one error modal; a
rejection with code `ENOSPC` shows the not-enough-space message and causes
no diagnostic report; a rejection whose code matches none of `EVALIDATION`,
`EUNPLUGGED`, `EIO`, `ENOSPC` shows the generic message and causes exactly
one diagnostic report; and a diagnostic report happens exactly when the
generic modal was shown. -/
theorem C4_error_classification (s : FlashSession) (code : Option String)
    (h : s.alreadyFlashing = false) (hsel : s.selectSucceeds = true)
    (hw : s.writer = WriterOutcome.rejects code) :
    ((flashImageToDrive s).filter isErrorModal).length = 1 ∧
    (code = some "ENOSPC" →
      Event.showErrorModal ErrMsg.notEnoughSpace ∈ flashImageToDrive s ∧
      (flashImageToDrive s).count Event.reportException = 0) ∧
    (code ≠ some "EVALIDATION" → code ≠ some "EUNPLUGGED" →
      code ≠ some "EIO" → code ≠ some "ENOSPC" →
      Event.showErrorModal ErrMsg.generic ∈ flashImageToDrive s ∧
      (flashImageToDrive s).count Event.reportException = 1) ∧
    ((flashImageToDrive s).count Event.reportException =
      if Event.showErrorModal ErrMsg.generic ∈ flashImageToDrive s then 1
      else 0) := by
  obtain ⟨af, ⟨p⟩, ticks, sel, w, c⟩ := s
  subst h; subst hsel; subst hw
  have hrep : ∀ n, Event.reportException ≠ Event.progressDownload n := by
    intro n hn; cases hn
  cases p <;>
    simp_all [flashImageToDrive, downloadImageIfNeeded, classifyFlashError,
      List.filter_append, filter_isErrorModal_progressTicks,
      List.count_append, count_map_progressTicks _ _ hrep,
      not_mem_map_progressTicks _ _ hrep, isErrorModal] <;>
    split_ifs <;>
    simp_all [List.count_cons, isErrorModal, List.count_append,
      count_reportException_progressTicks]

/-- Witness for C4: a concrete session whose writer rejects with `ENOSPC` —
the not-enough-space modal is shown and no diagnostic report happens. -/
theorem C4_error_classification_witness :
    Event.showErrorModal ErrMsg.notEnoughSpace ∈
      flashImageToDrive
        ⟨false, ⟨some "rpi.img"⟩, [], true, .rejects (some "ENOSPC"),
          false⟩ ∧
    (flashImageToDrive
        ⟨false, ⟨some "rpi.img"⟩, [], true, .rejects (some "ENOSPC"),
          false⟩).count Event.reportException = 0 :=
  (C4_error_classification
    ⟨false, ⟨some "rpi.img"⟩, [], true, .rejects (some "ENOSPC"), false⟩
    (some "ENOSPC") rfl rfl rfl).2.1 rfl

/-! ## Claim C9 -/

/-- C9 (confirmed): when the candidate image already has a local path,
`downloadImageIfNeeded` resolves immediately with that path and produces no
events, and the whole session trace contains no download progress record and
no streaming into the staging file. -/
theorem C9_local_image_skips_download (s : FlashSession) (p : String)
    (h : s.image.path = some p) :
    downloadImageIfNeeded s.image s.downloadTicks = ([], p) ∧
    (∀ n, Event.progressDownload n ∉ flashImageToDrive s) ∧
    Event.pipeToStaging ∉ flashImageToDrive s := by
  obtain ⟨af, ⟨q⟩, ticks, sel, w, c⟩ := s
  have hq : q = some p := h
  subst hq
  cases af <;> cases sel <;> cases c <;> rcases w with _ | code | _ <;>
    simp_all [flashImageToDrive, downloadImageIfNeeded, classifyFlashError] <;>
    split_ifs <;> simp_all

/-- Witness for C9: a concrete local image — `downloadImageIfNeeded`
resolves with its own path and an empty trace. -/
theorem C9_local_image_skips_download_witness :
    downloadImageIfNeeded (⟨some "rpi.img"⟩ : ImageRef) [] =
      ([], "rpi.img") :=
  (C9_local_image_skips_download
    ⟨false, ⟨some "rpi.img"⟩, [], true, .resolves, false⟩ "rpi.img" rfl).1

/-! ## Claim C5 -/

/-- C5 (confirmed): for every candidate whose path has an unsupported
extension, `selectImage` shows the invalid-image user error, logs the
diagnostic event, and rejects; `setImage` is never called, so Selection
State is unchanged. -/
theorem C5_unsupported_image_rejected (i : SelInput)
    (h : i.supported = false) :
    (selectImage i).2 = SelOutcome.rejectedWithImage ∧
    (selectImage i).1 = [SelEvent.showError, SelEvent.logInvalidImage] ∧
    SelEvent.setImage ∉ (selectImage i).1 := by
  obtain ⟨sup, lw, mbr, gb⟩ := i
  subst h
  simp [selectImage]

/-- Witness for C5: a concrete unsupported candidate. -/
theorem C5_unsupported_image_rejected_witness :
    (selectImage ⟨false, false, true, false⟩).2 =
      SelOutcome.rejectedWithImage ∧
    (selectImage ⟨false, false, true, false⟩).1 =
      [SelEvent.showError, SelEvent.logInvalidImage] ∧
    SelEvent.setImage ∉ (selectImage ⟨false, false, true, false⟩).1 :=
  C5_unsupported_image_rejected ⟨false, false, true, false⟩ rfl

/-! ## Claim C6 -/

/-- C6 (confirmed): for a supported candidate, `selectImage` shows at most
one risk warning, with the Windows heuristic evaluated first: if the path
matches the heuristic (regardless of `hasMBR`) exactly the Windows warning
is displayed, if it does not match and `hasMBR` is false exactly the
missing-partition-table warning is displayed, and never both. -/
theorem C6_at_most_one_risk_warning (i : SelInput)
    (h : i.supported = true) :
    (i.looksWindows = true →
      (selectImage i).1.count
          (SelEvent.displayWarningModal WarnMsg.looksLikeWindowsImage) = 1 ∧
      (selectImage i).1.count
          (SelEvent.displayWarningModal WarnMsg.missingPartitionTable) = 0) ∧
    (i.looksWindows = false → i.hasMBR = false →
      (selectImage i).1.count
          (SelEvent.displayWarningModal WarnMsg.missingPartitionTable) = 1 ∧
      (selectImage i).1.count
          (SelEvent.displayWarningModal WarnMsg.looksLikeWindowsImage) = 0) ∧
    ((selectImage i).1.filter isWarningModal).length ≤ 1 := by
  obtain ⟨sup, lw, mbr, gb⟩ := i
  subst h
  cases lw <;> cases mbr <;> cases gb <;> decide

/-- Witness for C6: a concrete candidate matching the Windows heuristic with
`hasMBR = true` — exactly the Windows warning is displayed. -/
theorem C6_at_most_one_risk_warning_witness :
    (selectImage ⟨true, true, true, false⟩).1.count
        (SelEvent.displayWarningModal WarnMsg.looksLikeWindowsImage) = 1 ∧
    (selectImage ⟨true, true, true, false⟩).1.count
        (SelEvent.displayWarningModal WarnMsg.missingPartitionTable) = 0 :=
  (C6_at_most_one_risk_warning ⟨true, true, true, false⟩ rfl).1 rfl

/-! ## Claim C7 -/

/-- C7, as stated, is false: when a risk warning was shown and the user
chose the go-back option, `reselectImage` only logs and clears the current
selection — it does not re-invoke image selection — and nothing on this path
ever calls `resolve` or `reject` on the promise returned by `selectImage`,
so that promise never settles (it does not resolve with any reselection
result). Concrete input: supported candidate matching the Windows
heuristic, user chooses go-back. -/
theorem C7_counterexample_go_back_never_settles :
    (selectImage ⟨true, true, true, true⟩).2 = SelOutcome.pending ∧
    SelOutcome.pending ≠ SelOutcome.resolved ∧
    SelEvent.removeImage ∈ (selectImage ⟨true, true, true, true⟩).1 ∧
    SelEvent.setImage ∉ (selectImage ⟨true, true, true, true⟩).1 := by
  decide

/-- C7 (amended): when a risk warning was shown and the user chose the
go-back option, the reselect path runs (logging the reselect event and
clearing the current selection) and the risky candidate is never committed,
but no image selection is re-invoked and the promise returned by
`selectImage` never settles. -/
theorem C7_go_back_clears_selection_promise_pending (i : SelInput)
    (h : i.supported = true)
    (hm : riskMessage i.looksWindows i.hasMBR ≠ none)
    (hg : i.userGoBack = true) :
    (selectImage i).2 = SelOutcome.pending ∧
    SelEvent.logReselect ∈ (selectImage i).1 ∧
    SelEvent.removeImage ∈ (selectImage i).1 ∧
    SelEvent.setImage ∉ (selectImage i).1 := by
  obtain ⟨sup, lw, mbr, gb⟩ := i
  subst h; subst hg
  revert hm
  cases lw <;> cases mbr <;> decide

/-- Witness for C7 (amended): a supported candidate with `hasMBR = false`
not matching the Windows heuristic, user chooses go-back. -/
theorem C7_go_back_clears_selection_promise_pending_witness :
    (selectImage ⟨true, false, false, true⟩).2 = SelOutcome.pending ∧
    SelEvent.logReselect ∈ (selectImage ⟨true, false, false, true⟩).1 ∧
    SelEvent.removeImage ∈ (selectImage ⟨true, false, false, true⟩).1 ∧
    SelEvent.setImage ∉ (selectImage ⟨true, false, false, true⟩).1 :=
  C7_go_back_clears_selection_promise_pending ⟨true, false, false, true⟩
    rfl (by decide) rfl

/-! ## Claim C8 -/

/-- C8, as stated, is false: the first guard of `getProgressButtonLabel`
returns `Flash!` whenever `isDownloading` is false, even while a flash is in
progress. Concrete state: not downloading, flashing, phase `write`,
percentage 45, known speed — the code returns `Flash!` where the claim's
rules give `45%`. -/
theorem C8_counterexample_flashing_but_not_downloading :
    getProgressButtonLabel ⟨false, true, some "write", 45, some 100⟩ true =
      "Flash!" ∧
    claimedProgressLabel ⟨false, true, some "write", 45, some 100⟩ true =
      "45%" ∧
    ("Flash!" : String) ≠ "45%" := by
  decide

/-- C8 (amended): `getProgressButtonLabel` is a pure function of the flash
state and the unmount-on-success setting, and returns `Flash!` unless both
downloading and flashing are true; when both are true it returns
`Starting...` at percentage 0 with no speed, `Unmounting...` at percentage
100 in the validate (`check`) phase with unmount-on-success enabled and
`Finishing...` otherwise at 100, `{percentage}% Validating...` in the
validate phase, `{percentage}% Downloading...` in the download phase, and
`{percentage}%` otherwise — i.e. it agrees everywhere with
`amendedProgressLabel`. -/
theorem C8_label_matches_amended_spec (s : FlashStateView) (u : Bool) :
    getProgressButtonLabel s u = amendedProgressLabel s u := by
  obtain ⟨d, f, ty, pct, sp⟩ := s
  cases d <;> cases f <;>
    simp [getProgressButtonLabel, amendedProgressLabel,
      PERCENTAGE_MINIMUM, PERCENTAGE_MAXIMUM]

/-! ## Claim C10 -/

/-- C10 (confirmed): `selectCustomImage` commits the fixed dride URL paired
with the given name when the name is `drideOSZ` or `drideOS`, and is a
no-op (no Selection State change, no return value) for every other name. -/
theorem C10_selectCustomImage_behaviour (n : String) :
    (n = "drideOSZ" →
      selectCustomImage n =
        [CustomSelEvent.setCustomImage drideLatestUrl n]) ∧
    (n = "drideOS" →
      selectCustomImage n =
        [CustomSelEvent.setCustomImage drideLatestUrl n]) ∧
    (n ≠ "drideOSZ" → n ≠ "drideOS" → selectCustomImage n = []) := by
  refine ⟨?_, ?_, ?_⟩
  · intro h; subst h; decide
  · intro h; subst h; decide
  · intro h1 h2; simp [selectCustomImage, h1, h2]

/-- Witness for C10: the name `drideOSZ` commits the fixed URL; the name
`other.img` is a no-op. -/
theorem C10_selectCustomImage_behaviour_witness :
    selectCustomImage "drideOSZ" =
      [CustomSelEvent.setCustomImage drideLatestUrl "drideOSZ"] ∧
    selectCustomImage "other.img" = [] :=
  ⟨(C10_selectCustomImage_behaviour "drideOSZ").1 rfl,
   (C10_selectCustomImage_behaviour "other.img").2.2 (by decide) (by decide)⟩

end Dride
